import Mathlib

/-!
Verification development for the SoulSync mission-plan engine
(`src/soulsync/services/missions.py`, `src/completion.py`,
`src/soulsync/services/streak.py`, `src/soulsync/services/stats.py`).

The Python code is shallowly embedded: JSON documents become records with
`Option` fields standing for possibly-absent dictionary keys, the SQLAlchemy
store becomes explicit record lists, machine wall-clock time is threaded as a
parameter, and code paths that raise become `Except.error`.
-/

namespace SoulSync

/-- Fixed mission-category enumeration (missions.py `ALLOWED_MISSION_TYPES`). -/
def ALLOWED_MISSION_TYPES : List String :=
  ["study", "fitness", "sleep", "nutrition", "reflection", "social", "chores"]

/-- Wind-down categories (missions.py `WIND_DOWN_TYPES`). -/
def WIND_DOWN_TYPES : List String := ["reflection", "sleep"]

/-- Content denylist (missions.py `UNSAFE_KEYWORDS`). -/
def DENY_KEYWORDS : List String := ["adult", "violence", "sexual", "explicit"]

/-- Boolean test: the list `pre` is an initial segment of `l`. -/
def leadsB : List Char → List Char → Bool
  | [], _ => true
  | _ :: _, [] => false
  | a :: as', b :: bs => a == b && leadsB as' bs

/-- Boolean test: `needle` occurs contiguously inside `hay`
(Python `needle in hay` on strings). -/
def substrCharsB (needle : List Char) : List Char → Bool
  | [] => leadsB needle []
  | c :: cs => leadsB needle (c :: cs) || substrCharsB needle cs

/-- Python `needle in hay` for strings. -/
def substrB (needle hay : String) : Bool :=
  substrCharsB needle.toList hay.toList

/-- ASCII lowering of one character (the embedded strings are ASCII, so this
matches Python `str.lower`). -/
def lowerChar (c : Char) : Char :=
  if c.toNat ≥ 65 && c.toNat ≤ 90 then Char.ofNat (c.toNat + 32) else c

/-- Python `s.lower()` (ASCII). -/
def lowerStr (s : String) : String :=
  String.mk (s.toList.map lowerChar)

/-- Python `any(kw in title.lower() for kw in UNSAFE_KEYWORDS)`
(missions.py lines 378 and 985). -/
def titleDeniedB (title : String) : Bool :=
  DENY_KEYWORDS.any (fun kw => substrB kw (lowerStr title))

/-- Time-context dictionary as consumed by the validators and the swap
engine: they read only the two `effective_*` keys, each via `.get(key, 0)`,
so the record carries exactly those two integers. -/
structure TimeCtx where
  effective_mins_to_bedtime : Int
  effective_mins_to_midnight : Int
deriving Repr, DecidableEq

/-- Nested micro-companion object of a candidate mission.  `title` is an
`Option` because `validate_swap_plan` tests key presence (`"title" not in
micro`); `duration_minutes` and `xp_reward` are only ever read through
`.get(key, 0)`, so absence is collapsed into the default value. -/
structure MicroJson where
  title : Option String
  duration_minutes : Int
  xp_reward : Int
deriving Repr, DecidableEq

/-- One entry of a candidate plan's `missions` list (or a swap replacement's
`new_mission`).  Every scalar field is read in the source through
`.get(key, default)`, so absent keys are collapsed into the defaults
(`""` for strings, `0` for numbers); `micro = none` stands for an absent or
empty (falsy) `micro` object, the two cases the source treats identically. -/
structure MissionJson where
  title : String
  type : String
  difficulty : String
  duration_minutes : Int
  xp_reward : Int
  micro : Option MicroJson
deriving Repr, DecidableEq

/-- Per-mission error messages produced by one iteration of the
`validate_plan` loop (missions.py lines 340-379), in source order:
category check, the three wind-down checks, duration range, xp range,
duplicate title, denylist. `titles` is the set of titles seen so far. -/
def missionErrors (ab : Bool) (i : Nat) (titles : List String) (m : MissionJson) :
    List String :=
  (if ALLOWED_MISSION_TYPES.contains m.type then []
   else [s!"Mission {i}: invalid type '{m.type}'"]) ++
  (if ab then
    (if WIND_DOWN_TYPES.contains m.type then []
     else [s!"Mission {i}: after bedtime, only reflection/sleep allowed, got '{m.type}'"]) ++
    (if m.difficulty == "easy" then []
     else [s!"Mission {i}: after bedtime, must be easy difficulty"]) ++
    (if m.duration_minutes > 15 then
      [s!"Mission {i}: after bedtime, max 15 minutes, got {m.duration_minutes}"]
     else [])
   else []) ++
  (if m.duration_minutes < 5 || m.duration_minutes > 60 then
    [s!"Mission {i}: duration {m.duration_minutes} not in 5-60 range"]
   else []) ++
  (if m.xp_reward < 5 || m.xp_reward > 60 then
    [s!"Mission {i}: xp {m.xp_reward} not in 5-60 range"]
   else []) ++
  (if titles.contains m.title then [s!"Mission {i}: duplicate title '{m.title}'"]
   else []) ++
  (if titleDeniedB m.title then [s!"Mission {i}: unsafe content in title"] else [])

/-- Python `if micro and micro.get("duration_minutes", 0) <= 5`
(missions.py lines 368-370): does this mission contribute `has_micro`? -/
def microFlag (m : MissionJson) : Bool :=
  match m.micro with
  | some mc => mc.duration_minutes ≤ 5
  | none => false

/-- The `for i, mission in enumerate(missions)` loop of `validate_plan`
(missions.py lines 340-381), carrying the seen-titles set, the running
duration total and the `has_micro` flag; returns the concatenated
per-mission errors together with the final total and flag. -/
def planLoop (ab : Bool) :
    List MissionJson → Nat → List String → Int → Bool → List String × Int × Bool
  | [], _, _, total, hm => ([], total, hm)
  | m :: rest, i, titles, total, hm =>
    let errs := missionErrors ab i titles m
    let out := planLoop ab rest (i + 1) (m.title :: titles)
      (total + m.duration_minutes) (hm || microFlag m)
    (errs ++ out.1, out.2)

/-- Plan validator `validate_plan(plan_json, minutes_cap, time_context)`
(missions.py lines 314-390).  The input is the `missions` list of the
candidate document; `none` stands for a falsy document or one without a
`"missions"` key (the two cases the source's first guard merges). -/
def validate_plan (plan : Option (List MissionJson)) (minutes_cap : Int)
    (ctx : TimeCtx) : Bool × List String :=
  match plan with
  | none => (false, ["Invalid plan JSON structure"])
  | some missions =>
    let n : Int := missions.length
    let countErrs := if n < 5 || n > 7 then [s!"Must have 5-7 missions, got {n}"] else []
    let ab := ctx.effective_mins_to_bedtime == 0
    let out := planLoop ab missions 0 [] 0 false
    let total := out.2.1
    let hasMicro := out.2.2
    let errs := countErrs ++ out.1 ++
      (if total > minutes_cap then
        [s!"Total duration {total} exceeds cap {minutes_cap}"] else []) ++
      (if hasMicro then [] else ["Must include at least one micro mission (<=5 mins)"])
    (errs == [], errs)

/-- One element of the list produced by `get_pending_missions` (missions.py
lines 697-728): title, category, duration and reward of a pending,
non-micro mission.  (Source note: line 716 of the file carries an
indentation slip on the `for` line; the loop body that follows it is
unambiguous and is what is modelled here.) -/
structure PendingMission where
  title : String
  type : String
  duration_minutes : Int
  xp_reward : Int
deriving Repr, DecidableEq

/-- One replacement entry of a swap document.  `new_mission` is read through
`.get("new_mission", {})` and its fields through `.get` with defaults, so an
absent object collapses into the all-default record. -/
structure ReplJson where
  replace_title : String
  new_mission : MissionJson
  reason : String
deriving Repr, DecidableEq

/-- Swap document as returned by the proposal collaborator or built by
`propose_swaps`.  Every field the source reads via `.get` or guards with
`"key" not in` is an `Option`; a falsy (empty) dictionary is the record with
every field `none`. -/
structure SwapDoc where
  date : Option String
  swap_count : Option Int
  no_swap_reason : Option String
  replacements : Option (List ReplJson)
  notes : Option String
deriving Repr, DecidableEq

/-- Dynamic swap ceiling shared by `propose_swaps`, `validate_swap_plan` and
`apply_swaps` (missions.py lines 775-784, 901-909, 1021-1029): pick the
binding effective horizon (midnight after bedtime, bedtime otherwise) and
allow 1 swap below 15 minutes, 2 below 30, else 3. -/
def swapLimit (ctx : TimeCtx) : Int :=
  let ab := ctx.effective_mins_to_bedtime == 0
  let eff := if ab then ctx.effective_mins_to_midnight else ctx.effective_mins_to_bedtime
  if eff < 15 then 1 else if eff < 30 then 2 else 3

/-- Per-replacement error messages of one iteration of the
`validate_swap_plan` loop (missions.py lines 937-988), in source order:
unknown target title, duplicate target, category, the three wind-down
checks, duration range, xp range, mandatory micro companion, denylist. -/
def replErrors (ab : Bool) (i : Nat) (pendingTitles : List String)
    (replacedTitles : List String) (r : ReplJson) : List String :=
  (if pendingTitles.contains r.replace_title then []
   else [s!"Replacement {i}: replace_title '{r.replace_title}' not found in pending missions"]) ++
  (if replacedTitles.contains r.replace_title then
    [s!"Replacement {i}: duplicate replace_title '{r.replace_title}'"]
   else []) ++
  (if ALLOWED_MISSION_TYPES.contains r.new_mission.type then []
   else [s!"Replacement {i}: invalid type '{r.new_mission.type}'"]) ++
  (if ab then
    (if WIND_DOWN_TYPES.contains r.new_mission.type then []
     else [s!"Replacement {i}: after bedtime, only reflection/sleep allowed, got '{r.new_mission.type}'"]) ++
    (if r.new_mission.difficulty == "easy" then []
     else [s!"Replacement {i}: after bedtime, must be easy difficulty"]) ++
    (if r.new_mission.duration_minutes > 15 then
      [s!"Replacement {i}: after bedtime, max 15 minutes, got {r.new_mission.duration_minutes}"]
     else [])
   else []) ++
  (if r.new_mission.duration_minutes < 5 || r.new_mission.duration_minutes > 60 then
    [s!"Replacement {i}: duration {r.new_mission.duration_minutes} not in 5-60 range"]
   else []) ++
  (if r.new_mission.xp_reward < 5 || r.new_mission.xp_reward > 60 then
    [s!"Replacement {i}: xp {r.new_mission.xp_reward} not in 5-60 range"]
   else []) ++
  (match r.new_mission.micro with
   | none => [s!"Replacement {i}: micro mission required"]
   | some mc =>
     if mc.title.isNone then [s!"Replacement {i}: micro mission required"]
     else if mc.duration_minutes > 5 then [s!"Replacement {i}: micro duration must be <= 5 mins"]
     else []) ++
  (if titleDeniedB r.new_mission.title then [s!"Replacement {i}: unsafe content in title"]
   else [])

/-- The `for i, repl in enumerate(replacements)` loop of `validate_swap_plan`
(missions.py lines 937-988), carrying the replaced-titles set and the running
replacement-duration total. -/
def swapLoop (ab : Bool) (pendingTitles : List String) :
    List ReplJson → Nat → List String → Int → List String × Int
  | [], _, _, total => ([], total)
  | r :: rest, i, replaced, total =>
    let errs := replErrors ab i pendingTitles replaced r
    let out := swapLoop ab pendingTitles rest (i + 1) (r.replace_title :: replaced)
      (total + r.new_mission.duration_minutes)
    (errs ++ out.1, out.2)

/-- Swap validator `validate_swap_plan(swap_json, pending_missions,
time_context)` (missions.py lines 877-1000).  A falsy document and a document
without the `swap_count` key (the source's first guard) both correspond to
`swap_count = none`. -/
def validate_swap_plan (doc : SwapDoc) (pending : List PendingMission)
    (ctx : TimeCtx) : Bool × List String :=
  match doc.swap_count with
  | none => (false, ["Invalid swap JSON: missing swap_count"])
  | some sc =>
    let repls := doc.replacements.getD []
    let reason := doc.no_swap_reason.getD ""
    let ab := ctx.effective_mins_to_bedtime == 0
    let limit := swapLimit ctx
    let e1 :=
      (if sc < 0 || sc > 3 then [s!"swap_count must be 0-3, got {sc}"] else []) ++
      (if sc > limit then [s!"swap_count {sc} exceeds time-based limit {limit}"] else [])
    if sc == 0 then
      let e2 := e1 ++
        (if repls.isEmpty then [] else ["If swap_count==0, replacements must be empty"]) ++
        (if reason == "" then ["If swap_count==0, no_swap_reason must be present"] else [])
      (e2 == [], e2)
    else
      let n := repls.length
      let e2 := e1 ++
        (if (n : Int) == sc then [] else [s!"swap_count={sc} but got {n} replacements"])
      let pendingTitles := pending.map (fun m => m.title)
      let out := swapLoop ab pendingTitles repls 0 [] 0
      let total := out.2
      let e3 := e2 ++ out.1 ++
        (if ab then
          let tl := ctx.effective_mins_to_midnight
          if total > tl then
            [s!"After bedtime: total replacement duration {total} exceeds midnight limit {tl} mins"]
          else []
        else
          let tl := ctx.effective_mins_to_bedtime
          if total > tl then
            [s!"Before bedtime: total replacement duration {total} exceeds bedtime limit {tl} mins"]
          else [])
      (e3 == [], e3)

/-- Python falsiness of a swap-document dictionary: an empty dictionary is
the record with every known field absent. -/
def SwapDoc.isFalsy (d : SwapDoc) : Bool :=
  d.date.isNone && d.swap_count.isNone && d.no_swap_reason.isNone &&
  d.replacements.isNone && d.notes.isNone

/-- Swap proposer `propose_swaps` (missions.py lines 730-875).  The pending
list, the time context and the collaborator's parsed answer (`none` for the
empty dict `call_gemini_json` returns on failure) are parameters; the prompt
string only feeds the opaque collaborator and is not modelled.  The body
mirrors the source: short-circuit on no pending missions, fallback document
on a falsy answer, default-filling of the four required keys, and the final
clamp of `swap_count` to the time-derived ceiling. -/
def propose_swaps (pending : List PendingMission) (ctx : TimeCtx)
    (dateStr : String) (resp : Option SwapDoc) : SwapDoc :=
  if pending.isEmpty then
    { date := some dateStr, swap_count := some 0,
      no_swap_reason := some "No pending missions to swap.",
      replacements := some [], notes := some "" }
  else
    let limit := swapLimit ctx
    let fallback : SwapDoc :=
      { date := some dateStr, swap_count := some 0,
        no_swap_reason := some "AI swap assistant unavailable.",
        replacements := some [], notes := some "" }
    match resp with
    | none => fallback
    | some d =>
      if d.isFalsy then fallback
      else
        let d1 : SwapDoc :=
          { d with
            swap_count := some (d.swap_count.getD 0),
            replacements := some (d.replacements.getD []),
            no_swap_reason := some (d.no_swap_reason.getD ""),
            notes := some (d.notes.getD "") }
        { d1 with swap_count := some (min (d1.swap_count.getD 0) limit) }

/-- Wall-clock instant within one day, as produced by `datetime.now()`
(hour, minute, second; microseconds are not modelled). -/
structure NowTime where
  hour : Nat
  minute : Nat
  second : Nat
deriving Repr, DecidableEq

/-- Seconds since local midnight. -/
def NowTime.secOfDay (t : NowTime) : Int :=
  (t.hour : Int) * 3600 + (t.minute : Int) * 60 + (t.second : Int)

/-- Python `s.split(":")` on the character list: one more part than there are
colons (so the empty string yields a single empty part). -/
def splitColon : List Char → List (List Char)
  | [] => [[]]
  | c :: cs =>
    if c == ':' then [] :: splitColon cs
    else
      match splitColon cs with
      | [] => [[c]]
      | p :: ps => (c :: p) :: ps

/-- Python `int(s)` on a character list (used through `pyInt`). -/
def pyIntChars (cs0 : List Char) : Option Int :=
  let cs := (cs0.dropWhile (fun c => c == ' ')).reverse.dropWhile (fun c => c == ' ') |>.reverse
  let sd : Int × List Char :=
    match cs with
    | '-' :: rest => (-1, rest)
    | '+' :: rest => (1, rest)
    | rest => (1, rest)
  if sd.2.isEmpty || !sd.2.all Char.isDigit then none
  else some (sd.1 * (sd.2.foldl (fun acc c => acc * 10 + ((c.toNat - '0'.toNat : Nat) : Int)) 0))

/-- The guarded parse `day_end_h, day_end_m = map(int, day_end_str.split(":"))`
of `compute_time_context` (missions.py lines 172-175): both the two-way
unpacking and each `int()` conversion can fail, and the bare `except` turns
any such failure into `none` (the 21:30 default). -/
def parseHM (s : String) : Option (Int × Int) :=
  match (splitColon s.toList).map pyIntChars with
  | [some h, some m] => some (h, m)
  | _ => none

/-- Full record returned by `compute_time_context` (missions.py lines
152-199).  The three `datetime` objects are kept as times-of-day rather than
ISO strings. -/
structure TimeContextFull where
  now_local : NowTime
  bedtime_cutoff_local : NowTime
  midnight_local : NowTime
  mins_to_bedtime : Int
  mins_to_midnight : Int
  effective_mins_to_bedtime : Int
  effective_mins_to_midnight : Int
  buffer_minutes : Int
deriving Repr, DecidableEq

/-- Python `max(0, int(diffSeconds / 60))`: for a nonnegative difference this
is the number of whole minutes, for a negative one it is 0. -/
def minsFloor (diffSeconds : Int) : Int :=
  ((diffSeconds.toNat) / 60 : Nat)

/-- Time-policy operation `compute_time_context(user_id, db)` (missions.py
lines 152-199).  `day_end` is the profile's `day_end_time_local` string
(`none` for a missing profile, which the source defaults to `"21:30"`); `now`
is the wall clock.  A parse failure falls back to 21:30 under the bare
`except`, but `now_local.replace(hour=..., minute=...)` sits outside that
guard and raises `ValueError` whenever the parsed hour is outside 0-23 or
the minute outside 0-59. -/
def compute_time_context (day_end : Option String) (now : NowTime) :
    Except String TimeContextFull :=
  let day_end_str := day_end.getD "21:30"
  let hm := (parseHM day_end_str).getD (21, 30)
  let h := hm.1
  let m := hm.2
  if h < 0 ∨ h > 23 ∨ m < 0 ∨ m > 59 then
    Except.error "ValueError: hour/minute must be in range in datetime.replace"
  else
    let cutoff : NowTime := ⟨h.toNat, m.toNat, 0⟩
    let midnight : NowTime := ⟨23, 59, 59⟩
    let mins_to_bedtime := minsFloor (cutoff.secOfDay - now.secOfDay)
    let mins_to_midnight := minsFloor (midnight.secOfDay - now.secOfDay)
    Except.ok
      { now_local := now
        bedtime_cutoff_local := cutoff
        midnight_local := midnight
        mins_to_bedtime := mins_to_bedtime
        mins_to_midnight := mins_to_midnight
        effective_mins_to_bedtime := max 0 (mins_to_bedtime - 15)
        effective_mins_to_midnight := max 0 (mins_to_midnight - 15)
        buffer_minutes := 15 }

/-- Persisted `missions` row (models.py `Mission`).  `difficulty` is kept as
the string the planner writes; `geo_parent_type` is the `parent_type` entry
of `geo_rule_json`, the only part of that metadata blob the embedded
operations read. -/
structure MissionRec where
  id : Nat
  title : String
  type : String
  difficulty : String
  xp_reward : Int
  duration_minutes : Int
  is_recovery : Bool
  created_for_date : String
  created_by_system : Bool
  geo_parent_type : Option String
deriving Repr, DecidableEq

/-- Persisted `mission_assignments` row (models.py `MissionAssignment`).
`proof_json` is not modelled: the only code that persists a change to it is
`apply_swaps`, which no claim exercises. -/
structure AssignRec where
  id : Nat
  user_id : Nat
  mission_id : Nat
  date : String
  status : String
  plan_run_id : Option Nat
  used_streak_shield : Bool
  completed_at : Option String
deriving Repr, DecidableEq

/-- Persisted `plan_runs` row (models.py `PlanRun`).  `meta_missions` is
`meta_json["plan_json"]["missions"]` read through the source's `.get`
defaults; `meta_counts` are the `created_missions_count` /
`created_micro_missions_count` entries written after assignment. -/
structure PlanRunRec where
  id : Nat
  user_id : Nat
  date : String
  plan_version : Int
  source : String
  kind : String
  status : String
  meta_missions : List MissionJson
  meta_counts : Option (Nat × Nat)
deriving Repr, DecidableEq

/-- Persisted `profiles` row (models.py `Profile`), restricted to the fields
the embedded operations read or write. -/
structure ProfileRec where
  user_id : Nat
  streak_count : Int
  streak_shields_remaining : Int
  day_end_time_local : Option String
deriving Repr, DecidableEq

/-- Persisted `stats` row (models.py `Stat`). -/
structure StatRec where
  user_id : Nat
  type : String
  level : Int
  xp : Int
deriving Repr, DecidableEq

/-- The transactional record store: one list per table.  `audits` keeps the
`event_type` of each appended `AuditLog` row. -/
structure Store where
  planRuns : List PlanRunRec
  missions : List MissionRec
  assignments : List AssignRec
  profiles : List ProfileRec
  stats : List StatRec
  audits : List String
deriving Repr, DecidableEq

/-- Update the first list element satisfying `p` (the effect of mutating the
object returned by a SQLAlchemy `.first()` query). -/
def updateFirst (p : α → Bool) (f : α → α) : List α → List α
  | [] => []
  | x :: xs => if p x then f x :: xs else x :: updateFirst p f xs

/-- Micro-policy constants (missions.py lines 13-17). -/
def MICRO_XP_DEFAULT : Int := 2

/-- Daily cap on total micro XP awards (missions.py line 14). -/
def MICRO_DAILY_CAP : Int := 10

/-- Wind-down-safe parent categories for micro completion (missions.py line 16). -/
def MICRO_ALLOWED_TYPES_AFTER_BEDTIME : List String := ["reflection", "sleep"]

/-- Maximal micro duration after bedtime (missions.py line 17). -/
def MICRO_MAX_DURATION_AFTER_BEDTIME : Int := 15


/-- Membership test for the `existing_assigned` supersession query of
`assign_plan_creating_daily_missions` (missions.py lines 451-464): another
assigned full-day run for the same user and date. -/
def isOldAssignedRun (user_id : Nat) (date_str : String) (planRunId : Nat)
    (r : PlanRunRec) : Bool :=
  r.user_id == user_id && r.date == date_str && r.kind == "full_plan" &&
    r.status == "assigned" && r.id != planRunId

/-- Membership test for the `old_assigns` archive queries of
`assign_plan_creating_daily_missions` (missions.py lines 466-473): a pending
assignment of one of the superseded runs. -/
def archivedByAssign (user_id : Nat) (date_str : String) (planRunId : Nat)
    (planRuns : List PlanRunRec) (a : AssignRec) : Bool :=
  a.user_id == user_id && a.date == date_str && a.status == "pending" &&
    (match a.plan_run_id with
     | some pid => planRuns.any (fun r =>
         isOldAssignedRun user_id date_str planRunId r && r.id == pid)
     | none => false)

/-- Plan assignment `assign_plan_creating_daily_missions(user_id, date_str,
plan_run, db)` (missions.py lines 441-594).  Returns the committed store and
the boolean result.  If the run is already `assigned` it returns `false`
before any mutation.  Otherwise every other assigned full-day run for the
same user and date is superseded and its still-pending assignments archived;
then, if the run's candidate `missions` list is nonempty, the first loop
iteration evaluates `micro_mission.geo_rule_json = {"why": micro_why, ...}`
(source lines 504-511) with both `micro_mission` and `micro_why` still
undefined, raising `NameError` before `db.commit()`, so nothing of the call
persists; with an empty candidate the run is marked assigned, the zero
creation counts are written into its metadata and the whole transaction
commits. -/
def assign_plan_creating_daily_missions (user_id : Nat) (date_str : String)
    (planRunId : Nat) (db : Store) : Except String (Store × Bool) :=
  match db.planRuns.find? (fun r => r.id == planRunId) with
  | none => Except.error "plan_run not found"
  | some plan_run =>
    if plan_run.status == "assigned" then Except.ok (db, false)
    else
      let planRuns1 := db.planRuns.map (fun r =>
        if isOldAssignedRun user_id date_str planRunId r then
          { r with status := "superseded" } else r)
      let assigns1 := db.assignments.map (fun a =>
        if archivedByAssign user_id date_str planRunId db.planRuns a then
          { a with status := "archived" } else a)
      if plan_run.meta_missions.isEmpty then
        let planRuns2 := planRuns1.map (fun r =>
          if r.id == planRunId then
            { r with status := "assigned", meta_counts := some (0, 0) } else r)
        Except.ok ({ db with planRuns := planRuns2, assignments := assigns1 }, true)
      else
        Except.error "NameError: name 'micro_why' is not defined"

/-- Python `getattr(mission, "xp", 0)` in completion.py line 43: the Mission
model (models.py) has an `xp_reward` column but no `xp` attribute, so getattr
returns the default 0 on every instance. -/
def missionGetattrXp (_ : MissionRec) : Int := 0

/-- Python `getattr(mission, "duration_min", 0)` in completion.py line 15:
Mission has `duration_minutes` but no `duration_min`, so getattr returns the
default 0 on every instance. -/
def missionGetattrDurationMin (_ : MissionRec) : Int := 0

/-- Micro-mission bonus (completion.py lines 9-10). -/
def MICRO_BONUS_XP : Int := 2

/-- Maximal micro duration (completion.py line 9). -/
def MICRO_MAX_MINUTES : Int := 5

/-- Micro qualification `is_micro(mission)` (completion.py lines 13-16):
category is exactly "micro", or the minutes read through
`getattr(mission, "duration_min", 0)` lie in (0, 5]. -/
def is_micro (m : MissionRec) : Bool :=
  lowerStr m.type == "micro" ||
    (0 < missionGetattrDurationMin m && missionGetattrDurationMin m ≤ MICRO_MAX_MINUTES)

/-- Reward computed by `complete_assignment` (completion.py lines 43-45):
`base_xp + bonus` with `base_xp = int(getattr(mission, "xp", 0) or 0)`. -/
def complete_earned (m : MissionRec) : Int :=
  missionGetattrXp m + (if is_micro m then MICRO_BONUS_XP else 0)

/-- Ordinary completion `complete_assignment(db, user_id=...,
assignment_id=...)` (completion.py lines 19-81).  A missing assignment raises
`ValueError`; an already-completed one is returned unchanged before any
mutation.  On the not-yet-completed path the source stages the status,
timestamp and proof mutations and then constructs
`AuditLog(user_id=..., action=..., meta_json=...)`: models.py's `AuditLog`
has an `event_type` column and no `action` keyword, so the declarative
constructor raises `TypeError` and `db.commit()` on line 79 is never
reached — the staged mutations do not persist. -/
def complete_assignment (db : Store) (user_id : Nat) (assignment_id : Nat) :
    Except String (Store × AssignRec) :=
  match db.assignments.find? (fun a => a.id == assignment_id && a.user_id == user_id) with
  | none => Except.error "ValueError: Assignment not found"
  | some a =>
    if lowerStr a.status == "completed" then Except.ok (db, a)
    else
      match db.missions.find? (fun m => m.id == a.mission_id) with
      | none => Except.error "ValueError: Mission not found"
      | some mission =>
        let _earned := complete_earned mission
        Except.error "TypeError: 'action' is an invalid keyword argument for AuditLog"

/-- XP ledger update `add_xp(user_id, stat_type, amount, db)` (stats.py
lines 15-24): bump the first matching stat row and apply the single-step
level-up rule. -/
def add_xp (user_id : Nat) (stat_type : String) (amount : Int) (db : Store) : Store :=
  let stats1 := updateFirst
    (fun s => s.user_id == user_id && s.type == stat_type)
    (fun s =>
      let xp1 := s.xp + amount
      let required := s.level * 100
      if xp1 ≥ required then { s with level := s.level + 1, xp := xp1 - required }
      else { s with xp := xp1 })
    db.stats
  { db with stats := stats1 }

/-- Micro-completion gate `can_mark_micro_now(micro_assign, time_context,
db)` (missions.py lines 19-45). -/
def can_mark_micro_now (micro_assign : AssignRec) (ctx : TimeContextFull)
    (db : Store) : Bool × String :=
  let after_bedtime := ctx.effective_mins_to_bedtime == 0
  match db.missions.find? (fun m => m.id == micro_assign.mission_id) with
  | none => (false, "Mission not found.")
  | some mission =>
    if lowerStr mission.type != "micro" then (false, "Not a micro mission.")
    else
      let parent_type := lowerStr (mission.geo_parent_type.getD "")
      let dur := mission.duration_minutes
      if after_bedtime then
        if !(MICRO_ALLOWED_TYPES_AFTER_BEDTIME.contains parent_type) then
          (false, s!"After bedtime: only reflection/sleep micros allowed (parent type '{parent_type}').")
        else if dur > MICRO_MAX_DURATION_AFTER_BEDTIME then
          (false, s!"After bedtime: micro duration must be <= {MICRO_MAX_DURATION_AFTER_BEDTIME} mins (got {dur}).")
        else (true, "")
      else (true, "")

/-- Micro reward `award_micro_xp(user_id, mission, db)` (missions.py lines
47-80): mission XP (default 2 when falsy), clamped so that today's completed
micro rewards stay within the daily cap, then credited to the Proficiency
stat when positive.  `todayStr` is `date.today().isoformat()`. -/
def award_micro_xp (user_id : Nat) (mission : MissionRec) (todayStr : String)
    (db : Store) : Store :=
  let xp0 := if mission.xp_reward == 0 then MICRO_XP_DEFAULT else mission.xp_reward
  let isMicroRow : AssignRec → Bool := fun a =>
    match db.missions.find? (fun m => m.id == a.mission_id) with
    | some m => m.type == "micro"
    | none => false
  let todays := db.assignments.filter (fun a =>
    a.user_id == user_id && a.date == todayStr && a.status == "completed" && isMicroRow a)
  let total := todays.foldl (fun acc a =>
    match db.missions.find? (fun m => m.id == a.mission_id) with
    | some m => if m.xp_reward != 0 then acc + m.xp_reward else acc
    | none => acc) 0
  let xp := if total + xp0 > MICRO_DAILY_CAP then max 0 (MICRO_DAILY_CAP - total) else xp0
  if xp > 0 then add_xp user_id "Proficiency" xp db else db

/-- Micro completion `mark_micro_completed(assignment_id, db)` (missions.py
lines 82-137).  `todayStr` and `nowStamp` stand for `date.today()` and
`datetime.now()`; `now` feeds the bedtime gate's `compute_time_context`
call, whose possible `ValueError` propagates (it is raised outside the
function's `try`).  Already-completed assignments return `ok` with no
mutation. -/
def mark_micro_completed (assignment_id : Nat) (todayStr nowStamp : String)
    (now : NowTime) (db : Store) : Except String ((Bool × List String) × Store) :=
  match db.assignments.find? (fun a => a.id == assignment_id) with
  | none => Except.ok ((false, ["Assignment not found."]), db)
  | some assign =>
    if assign.status == "completed" then Except.ok ((true, []), db)
    else
      match db.missions.find? (fun m => m.id == assign.mission_id) with
      | none => Except.ok ((false, ["Mission not found."]), db)
      | some mission =>
        if lowerStr mission.type != "micro" then
          Except.ok ((false, ["Assignment is not a micro mission."]), db)
        else
          let day_end :=
            (db.profiles.find? (fun p => p.user_id == assign.user_id)).bind
              (fun p => p.day_end_time_local)
          (compute_time_context day_end now).bind (fun ctx =>
            let gate := can_mark_micro_now assign ctx db
            if !gate.1 then Except.ok ((false, [gate.2]), db)
            else
              let assigns1 := updateFirst
                (fun a => a.id == assignment_id)
                (fun a => { a with status := "completed", completed_at := some nowStamp })
                db.assignments
              let db1 := { db with assignments := assigns1 }
              let db2 := award_micro_xp assign.user_id mission todayStr db1
              let db3 := { db2 with audits := db2.audits ++ ["mission_micro_completed"] }
              Except.ok ((true, []), db3))

/-- Recovery completion `complete_recovery_mission(assignment_id, db)`
(streak.py lines 71-86): no already-completed guard — the found assignment is
stamped completed with the shield flag, then the profile's streak counter is
incremented and its shield counter decremented (floored at 0), on every
call. -/
def complete_recovery_mission (assignment_id : Nat) (db : Store) : Store :=
  match db.assignments.find? (fun a => a.id == assignment_id) with
  | none => db
  | some assign =>
    let assigns1 := updateFirst
      (fun a => a.id == assignment_id)
      (fun a => { a with status := "completed", used_streak_shield := true })
      db.assignments
    let bump : ProfileRec → ProfileRec := fun p =>
      { p with streak_count := p.streak_count + 1
               streak_shields_remaining := max 0 (p.streak_shields_remaining - 1) }
    let profiles1 := updateFirst (fun p => p.user_id == assign.user_id) bump db.profiles
    { db with assignments := assigns1, profiles := profiles1 }

/-- JSON-shaped Python value, for the dynamic-semantics embedding of
`validate_plan` (claim C9 quantifies over arbitrary dict-shaped documents,
including ill-typed field values). -/
inductive PyVal where
  | pnone
  | pbool (b : Bool)
  | pint (n : Int)
  | pstr (s : String)
  | plist (xs : List PyVal)
  | pdict (kvs : List (String × PyVal))

/-- Python type name, for exception texts. -/
def pyTypeName : PyVal → String
  | .pnone => "NoneType"
  | .pbool _ => "bool"
  | .pint _ => "int"
  | .pstr _ => "str"
  | .plist _ => "list"
  | .pdict _ => "dict"

/-- Python truthiness. -/
def pyTruthy : PyVal → Bool
  | .pnone => false
  | .pbool b => b
  | .pint n => n != 0
  | .pstr s => !s.isEmpty
  | .plist xs => !xs.isEmpty
  | .pdict kvs => !kvs.isEmpty

mutual

/-- Python `repr`. -/
def pyRepr : PyVal → String
  | .pnone => "None"
  | .pbool true => "True"
  | .pbool false => "False"
  | .pint n => toString n
  | .pstr s => "'" ++ s ++ "'"
  | .plist xs => "[" ++ pyReprList xs ++ "]"
  | .pdict kvs => "\x7b" ++ pyReprDict kvs ++ "\x7d"

/-- Comma-joined reprs of list elements. -/
def pyReprList : List PyVal → String
  | [] => ""
  | [v] => pyRepr v
  | v :: rest => pyRepr v ++ ", " ++ pyReprList rest

/-- Comma-joined reprs of dict items. -/
def pyReprDict : List (String × PyVal) → String
  | [] => ""
  | [kv] => "'" ++ kv.1 ++ "': " ++ pyRepr kv.2
  | kv :: rest => "'" ++ kv.1 ++ "': " ++ pyRepr kv.2 ++ ", " ++ pyReprDict rest

end

/-- Python `str()` as used by f-string interpolation. -/
def pyStr : PyVal → String
  | .pstr s => s
  | v => pyRepr v

mutual

/-- Python `==`.  Booleans compare as the integers 0/1. -/
def pyEqB : PyVal → PyVal → Bool
  | .pnone, .pnone => true
  | .pbool a, .pbool b => a == b
  | .pbool a, .pint n => (if a then (1 : Int) else 0) == n
  | .pint n, .pbool a => n == (if a then (1 : Int) else 0)
  | .pint a, .pint b => a == b
  | .pstr a, .pstr b => a == b
  | .plist as', .plist bs => pyEqListB as' bs
  | .pdict as', .pdict bs => pyEqDictB as' bs
  | _, _ => false

/-- Elementwise Python `==` on lists. -/
def pyEqListB : List PyVal → List PyVal → Bool
  | [], [] => true
  | a :: as', b :: bs => pyEqB a b && pyEqListB as' bs
  | _, _ => false

/-- Itemwise Python `==` on dicts (item order is not abstracted over; the
embedded code never compares two dicts). -/
def pyEqDictB : List (String × PyVal) → List (String × PyVal) → Bool
  | [], [] => true
  | a :: as', b :: bs => a.1 == b.1 && pyEqB a.2 b.2 && pyEqDictB as' bs
  | _, _ => false

end

/-- Python hashability (set membership and insertion need it). -/
def pyHashable : PyVal → Bool
  | .plist _ => false
  | .pdict _ => false
  | _ => true

/-- Python `len(v)`. -/
def pyLen : PyVal → Except String Int
  | .pstr s => Except.ok (s.length : Int)
  | .plist xs => Except.ok (xs.length : Int)
  | .pdict kvs => Except.ok (kvs.length : Int)
  | v => Except.error ("TypeError: object of type '" ++ pyTypeName v ++ "' has no len()")

/-- Python iteration (`for x in v`): lists yield elements, strings their
characters, dicts their keys. -/
def pyIter : PyVal → Except String (List PyVal)
  | .plist xs => Except.ok xs
  | .pstr s => Except.ok (s.toList.map (fun c => .pstr (String.mk [c])))
  | .pdict kvs => Except.ok (kvs.map (fun kv => .pstr kv.1))
  | v => Except.error ("TypeError: '" ++ pyTypeName v ++ "' object is not iterable")

/-- Python `v.get(key, default)`: only dicts have the method. -/
def pyGetM (v : PyVal) (k : String) (d : PyVal) : Except String PyVal :=
  match v with
  | .pdict kvs => Except.ok (((kvs.find? (fun kv => kv.1 == k)).map (fun kv => kv.2)).getD d)
  | _ => Except.error ("AttributeError: '" ++ pyTypeName v ++ "' object has no attribute 'get'")

/-- Python `v < n` for an int literal on the right. -/
def pyLtI (v : PyVal) (n : Int) : Except String Bool :=
  match v with
  | .pint m => Except.ok (m < n)
  | .pbool b => Except.ok ((if b then (1 : Int) else 0) < n)
  | _ => Except.error ("TypeError: '<' not supported between instances of '" ++ pyTypeName v ++ "' and 'int'")

/-- Python `v > n` for an int literal on the right. -/
def pyGtI (v : PyVal) (n : Int) : Except String Bool :=
  match v with
  | .pint m => Except.ok (m > n)
  | .pbool b => Except.ok ((if b then (1 : Int) else 0) > n)
  | _ => Except.error ("TypeError: '>' not supported between instances of '" ++ pyTypeName v ++ "' and 'int'")

/-- Python `v <= n` for an int literal on the right. -/
def pyLeI (v : PyVal) (n : Int) : Except String Bool :=
  match v with
  | .pint m => Except.ok (m ≤ n)
  | .pbool b => Except.ok ((if b then (1 : Int) else 0) ≤ n)
  | _ => Except.error ("TypeError: '<=' not supported between instances of '" ++ pyTypeName v ++ "' and 'int'")

/-- Python `n > v` for an int on the left (the `total_duration > minutes_cap`
check). -/
def pyIGt (n : Int) (v : PyVal) : Except String Bool :=
  match v with
  | .pint m => Except.ok (n > m)
  | .pbool b => Except.ok (n > (if b then (1 : Int) else 0))
  | _ => Except.error ("TypeError: '>' not supported between instances of 'int' and '" ++ pyTypeName v ++ "'")

/-- Python `n + v` for an int on the left (the `total_duration += duration`
update). -/
def pyAddI (n : Int) (v : PyVal) : Except String Int :=
  match v with
  | .pint m => Except.ok (n + m)
  | .pbool b => Except.ok (n + (if b then (1 : Int) else 0))
  | _ => Except.error ("TypeError: unsupported operand type(s) for +=: 'int' and '" ++ pyTypeName v ++ "'")

/-- Python `v.lower()`: only strings have the method. -/
def pyLower (v : PyVal) : Except String String :=
  match v with
  | .pstr s => Except.ok (lowerStr s)
  | _ => Except.error ("AttributeError: '" ++ pyTypeName v ++ "' object has no attribute 'lower'")

/-- The `for i, mission in enumerate(missions)` loop of `validate_plan` under
Python dynamic semantics (missions.py lines 340-381), with every implicit
`TypeError`/`AttributeError` made explicit, in the source's evaluation
order. -/
def dynLoop (ab : Bool) :
    List PyVal → Nat → List PyVal → Int → Bool →
      Except String (List String × Int × Bool)
  | [], _, _, total, hm => Except.ok ([], total, hm)
  | mv :: rest, i, titles, total, hm => do
    let title ← pyGetM mv "title" (.pstr "")
    let mtype ← pyGetM mv "type" (.pstr "")
    let diff ← pyGetM mv "difficulty" (.pstr "")
    let dur ← pyGetM mv "duration_minutes" (.pint 0)
    let xp ← pyGetM mv "xp_reward" (.pint 0)
    let ts := pyStr mtype
    let ds := pyStr dur
    let xs := pyStr xp
    let typeE := if ALLOWED_MISSION_TYPES.any (fun s => pyEqB mtype (.pstr s)) then []
      else [s!"Mission {i}: invalid type '{ts}'"]
    let abE ←
      if ab then do
        let w := if WIND_DOWN_TYPES.any (fun s => pyEqB mtype (.pstr s)) then []
          else [s!"Mission {i}: after bedtime, only reflection/sleep allowed, got '{ts}'"]
        let d := if pyEqB diff (.pstr "easy") then []
          else [s!"Mission {i}: after bedtime, must be easy difficulty"]
        let gt15 ← pyGtI dur 15
        let u := if gt15 then
            [s!"Mission {i}: after bedtime, max 15 minutes, got {ds}"] else []
        pure (w ++ d ++ u)
      else pure []
    let lt5 ← pyLtI dur 5
    let durBad ← if lt5 then pure true else pyGtI dur 60
    let durE := if durBad then [s!"Mission {i}: duration {ds} not in 5-60 range"] else []
    let xlt ← pyLtI xp 5
    let xpBad ← if xlt then pure true else pyGtI xp 60
    let xpE := if xpBad then [s!"Mission {i}: xp {xs} not in 5-60 range"] else []
    let micro ← pyGetM mv "micro" (.pdict [])
    let hm1 ←
      if pyTruthy micro then do
        let md ← pyGetM micro "duration_minutes" (.pint 0)
        let le5 ← pyLeI md 5
        pure (hm || le5)
      else pure hm
    if !pyHashable title then
      Except.error ("TypeError: unhashable type: '" ++ pyTypeName title ++ "'")
    else do
      let tis := pyStr title
      let dupE := if titles.any (fun t => pyEqB title t) then
          [s!"Mission {i}: duplicate title '{tis}'"] else []
      let tl ← pyLower title
      let denyE := if DENY_KEYWORDS.any (fun kw => substrB kw tl) then
          [s!"Mission {i}: unsafe content in title"] else []
      let total1 ← pyAddI total dur
      let out ← dynLoop ab rest (i + 1) (title :: titles) total1 hm1
      return (typeE ++ abE ++ durE ++ xpE ++ dupE ++ denyE ++ out.1, out.2)

/-- Plan validator `validate_plan` under Python dynamic semantics (missions.py
lines 314-390) for an arbitrary dict-shaped document with arbitrarily typed
values: implicit exceptions become `Except.error`, normal returns become
`Except.ok (ok, errors)`. -/
def validate_plan_dyn (plan_json : List (String × PyVal)) (minutes_cap : PyVal)
    (time_context : PyVal) : Except String (Bool × List String) :=
  if plan_json.isEmpty || !(plan_json.any (fun kv => kv.1 == "missions")) then
    Except.ok (false, ["Invalid plan JSON structure"])
  else
    let missions := (((plan_json.find? (fun kv => kv.1 == "missions")).map
      (fun kv => kv.2)).getD (.plist []))
    (do
      let n ← pyLen missions
      let countErrs := if n < 5 || n > 7 then [s!"Must have 5-7 missions, got {n}"] else []
      let abv ← pyGetM time_context "effective_mins_to_bedtime" (.pint 0)
      let ab := pyEqB abv (.pint 0)
      let items ← pyIter missions
      let out ← dynLoop ab items 0 [] 0 false
      let total := out.2.1
      let hasMicro := out.2.2
      let overCap ← pyIGt total minutes_cap
      let caps := pyStr minutes_cap
      let errs := countErrs ++ out.1 ++
        (if overCap then
          [s!"Total duration {total} exceeds cap {caps}"] else []) ++
        (if hasMicro then [] else ["Must include at least one micro mission (<=5 mins)"])
      return (errs == [], errs))

/-- Encoding of a typed micro companion as a Python dict. -/
def encodeMicro (mc : MicroJson) : PyVal :=
  .pdict ((match mc.title with | some t => [("title", PyVal.pstr t)] | none => []) ++
    [("duration_minutes", PyVal.pint mc.duration_minutes),
     ("xp_reward", PyVal.pint mc.xp_reward)])

/-- Encoding of a typed candidate mission as a Python dict. -/
def encodeMission (m : MissionJson) : PyVal :=
  .pdict ([("title", PyVal.pstr m.title), ("type", PyVal.pstr m.type),
    ("difficulty", PyVal.pstr m.difficulty),
    ("duration_minutes", PyVal.pint m.duration_minutes),
    ("xp_reward", PyVal.pint m.xp_reward)] ++
    (match m.micro with | some mc => [("micro", encodeMicro mc)] | none => []))

/-- Encoding of a typed candidate document as a Python dict (`none`, the
falsy or missions-less document, becomes the empty dict). -/
def encodePlan : Option (List MissionJson) → List (String × PyVal)
  | none => []
  | some ms => [("missions", PyVal.plist (ms.map encodeMission))]

/-- Encoding of a typed time context as a Python dict. -/
def encodeCtx (ctx : TimeCtx) : PyVal :=
  .pdict [("effective_mins_to_bedtime", PyVal.pint ctx.effective_mins_to_bedtime),
    ("effective_mins_to_midnight", PyVal.pint ctx.effective_mins_to_midnight)]

/-- End-to-end scenario A of the spec: six missions summing to 55 minutes,
including one 4-minute reflection mission, no micro companions. -/
def scenarioA : List MissionJson :=
  [⟨"Read lecture notes", "study", "medium", 11, 10, none⟩,
   ⟨"Quick walk", "fitness", "easy", 10, 10, none⟩,
   ⟨"Meal prep", "nutrition", "easy", 10, 10, none⟩,
   ⟨"Call a friend", "social", "easy", 10, 10, none⟩,
   ⟨"Tidy desk", "chores", "easy", 10, 10, none⟩,
   ⟨"Evening reflection", "reflection", "easy", 4, 10, none⟩]

/-- Scenario A adjusted to what the code actually accepts: all durations in
[5, 60] and the minimal-effort option supplied as a nested 4-minute micro
companion of the reflection mission. -/
def scenarioA_companion : List MissionJson :=
  [⟨"Read lecture notes", "study", "medium", 10, 10, none⟩,
   ⟨"Quick walk", "fitness", "easy", 10, 10, none⟩,
   ⟨"Meal prep", "nutrition", "easy", 10, 10, none⟩,
   ⟨"Call a friend", "social", "easy", 10, 10, none⟩,
   ⟨"Tidy desk", "chores", "easy", 10, 10, none⟩,
   ⟨"Evening reflection", "reflection", "easy", 5, 10,
     some ⟨some "One mindful breath", 4, 5⟩⟩]

/-- A wind-down candidate plan accepted when `effective_mins_to_bedtime = 0`:
five reflection/sleep missions, all easy, 10 minutes each, one with a micro
companion. -/
def windDownPlan : List MissionJson :=
  [⟨"Gratitude journal", "reflection", "easy", 10, 10,
     some ⟨some "One deep breath", 3, 5⟩⟩,
   ⟨"Dim the lights", "sleep", "easy", 10, 10, none⟩,
   ⟨"Body scan", "reflection", "easy", 10, 10, none⟩,
   ⟨"Prepare bed", "sleep", "easy", 10, 10, none⟩,
   ⟨"Review tomorrow", "reflection", "easy", 10, 10, none⟩]

/-- A swap document accepted after bedtime: one replacement of a pending
mission by an easy 10-minute reflection mission with a micro companion. -/
def windDownSwapDoc : SwapDoc :=
  { date := some "2025-01-15", swap_count := some 1, no_swap_reason := some "",
    replacements := some
      [⟨"Old study block",
        ⟨"Night journaling", "reflection", "easy", 10, 10,
          some ⟨some "One line of gratitude", 3, 5⟩⟩, "winding down"⟩],
    notes := some "" }

/-- The pending mission replaced by `windDownSwapDoc`. -/
def windDownPending : List PendingMission :=
  [⟨"Old study block", "study", 30, 10⟩]

/-- Swap document claiming five swaps (outside [0,3] and above any ceiling). -/
def overcountSwapDoc : SwapDoc :=
  { date := some "2025-01-15", swap_count := some 5, no_swap_reason := some "",
    replacements := some [], notes := some "" }

/-- Scenario C pending list: three pending missions. -/
def scenarioC_pending : List PendingMission :=
  [⟨"Morning run", "fitness", 30, 20⟩,
   ⟨"Chapter review", "study", 25, 15⟩,
   ⟨"Dishes", "chores", 15, 10⟩]

/-- Scenario C collaborator answer: claims three swaps although the
time-derived ceiling is 1. -/
def scenarioC_resp : SwapDoc :=
  { date := some "2025-01-15", swap_count := some 3, no_swap_reason := some "",
    replacements := some [], notes := some "" }

/-- Store with an assigned full-day run (id 1) owning one pending and one
completed assignment, and a previewed second run (id 2) with an empty
candidate, for the supersession and idempotence claims. -/
def twoRunStore : Store :=
  { planRuns :=
      [⟨1, 1, "2025-01-15", 1, "missions_page", "full_plan", "assigned", [], none⟩,
       ⟨2, 1, "2025-01-15", 2, "missions_page", "full_plan", "previewed", [], none⟩],
    missions :=
      [⟨10, "Read lecture notes", "study", "medium", 20, 30, false, "2025-01-15", true, none⟩,
       ⟨11, "Quick walk", "fitness", "easy", 15, 20, false, "2025-01-15", true, none⟩],
    assignments :=
      [⟨100, 1, 10, "2025-01-15", "pending", some 1, false, none⟩,
       ⟨101, 1, 11, "2025-01-15", "completed", some 1, false, some "2025-01-15T10:00:00"⟩],
    profiles := [⟨1, 4, 2, some "21:30"⟩],
    stats := [⟨1, "Proficiency", 1, 0⟩],
    audits := [] }

/-- The store after assigning run 2 of `twoRunStore`: run 1 superseded, its
pending assignment archived, its completed assignment untouched, run 2
assigned with zero creation counts. -/
def twoRunStoreAssigned : Store :=
  { twoRunStore with
    planRuns :=
      [⟨1, 1, "2025-01-15", 1, "missions_page", "full_plan", "superseded", [], none⟩,
       ⟨2, 1, "2025-01-15", 2, "missions_page", "full_plan", "assigned", [], some (0, 0)⟩],
    assignments :=
      [⟨100, 1, 10, "2025-01-15", "archived", some 1, false, none⟩,
       ⟨101, 1, 11, "2025-01-15", "completed", some 1, false, some "2025-01-15T10:00:00"⟩] }

/-- Store with a recovery assignment (id 5) that is already completed, and
the profile at streak 5 with one shield left. -/
def recoveryStore : Store :=
  { planRuns := [],
    missions := [⟨50, "Recover Your Streak", "Recovery", "1", 25, 10, true, "2025-01-15", true, none⟩],
    assignments := [⟨5, 1, 50, "2025-01-15", "completed", none, true, some "2025-01-15T20:00:00"⟩],
    profiles := [⟨1, 5, 1, some "21:30"⟩],
    stats := [⟨1, "Proficiency", 1, 0⟩],
    audits := [] }

/-- Store with an already-completed micro assignment (id 7, user 1) for the
completion-idempotence witnesses. -/
def completedMicroStore : Store :=
  { planRuns := [],
    missions := [⟨70, "One mindful breath", "micro", "easy", 5, 3, false, "2025-01-15", true, some "reflection"⟩],
    assignments := [⟨7, 1, 70, "2025-01-15", "completed", none, false, some "2025-01-15T18:00:00"⟩],
    profiles := [⟨1, 2, 2, some "21:30"⟩],
    stats := [⟨1, "Proficiency", 1, 0⟩],
    audits := [] }

/-- A 3-minute study mission: by the claimed micro rule (duration in (0,5])
it qualifies as micro and carries reward 10 + bonus. -/
def shortStudyMission : MissionRec :=
  ⟨80, "Flashcards sprint", "study", "easy", 10, 3, false, "2025-01-15", true, none⟩

/-- Store with `shortStudyMission` pending as assignment 8 for user 1. -/
def shortStudyStore : Store :=
  { planRuns := [],
    missions := [shortStudyMission],
    assignments := [⟨8, 1, 80, "2025-01-15", "pending", none, false, none⟩],
    profiles := [⟨1, 0, 2, some "21:30"⟩],
    stats := [⟨1, "Knowledge", 1, 0⟩],
    audits := [] }

/-! Helper lemmas. -/

lemma swapLimit_ge_one (ctx : TimeCtx) : 1 ≤ swapLimit ctx := by
  simp only [swapLimit]
  split
  · omega
  · split <;> omega

lemma missionErrors_nil_windDown (i : Nat) (titles : List String) (m : MissionJson)
    (h : missionErrors true i titles m = []) :
    (m.type = "reflection" ∨ m.type = "sleep") ∧ m.difficulty = "easy" ∧
      m.duration_minutes ≤ 15 := by
  simp [missionErrors] at h
  exact ⟨by simpa [WIND_DOWN_TYPES] using h.2.1, h.2.2.1, h.2.2.2.1⟩

lemma planLoop_nil_windDown :
    ∀ (ms : List MissionJson) (i : Nat) (titles : List String) (total : Int) (hm : Bool),
    (planLoop true ms i titles total hm).1 = [] →
    ∀ m ∈ ms, (m.type = "reflection" ∨ m.type = "sleep") ∧ m.difficulty = "easy" ∧
      m.duration_minutes ≤ 15
  | [], _, _, _, _, _, m, hmem => by simp at hmem
  | m0 :: rest, i, titles, total, hm, h, m, hmem => by
    simp only [planLoop, List.append_eq_nil] at h
    rcases List.mem_cons.mp hmem with hEq | hMem
    · subst hEq; exact missionErrors_nil_windDown i titles m h.1
    · exact planLoop_nil_windDown rest (i+1) (m0.title :: titles)
        (total + m0.duration_minutes) (hm || microFlag m0) h.2 m hMem

lemma validate_plan_true_windDown (ms : List MissionJson) (cap : Int) (ctx : TimeCtx)
    (h0 : ctx.effective_mins_to_bedtime = 0)
    (h : (validate_plan (some ms) cap ctx).1 = true) :
    ∀ m ∈ ms, (m.type = "reflection" ∨ m.type = "sleep") ∧ m.difficulty = "easy" ∧
      m.duration_minutes ≤ 15 := by
  simp only [validate_plan, h0] at h
  rw [beq_iff_eq] at h
  simp only [List.append_eq_nil] at h
  exact planLoop_nil_windDown ms 0 [] 0 false h.1.1.2

lemma replErrors_nil_windDown (i : Nat) (pt rt : List String) (r : ReplJson)
    (h : replErrors true i pt rt r = []) :
    (r.new_mission.type = "reflection" ∨ r.new_mission.type = "sleep") ∧
      r.new_mission.difficulty = "easy" ∧ r.new_mission.duration_minutes ≤ 15 := by
  simp [replErrors] at h
  exact ⟨by simpa [WIND_DOWN_TYPES] using h.2.2.2.1, h.2.2.2.2.1, h.2.2.2.2.2.1⟩

lemma swapLoop_nil_windDown (pt : List String) :
    ∀ (rs : List ReplJson) (i : Nat) (replaced : List String) (total : Int),
    (swapLoop true pt rs i replaced total).1 = [] →
    ∀ r ∈ rs, (r.new_mission.type = "reflection" ∨ r.new_mission.type = "sleep") ∧
      r.new_mission.difficulty = "easy" ∧ r.new_mission.duration_minutes ≤ 15
  | [], _, _, _, _, r, hmem => by simp at hmem
  | r0 :: rest, i, replaced, total, h, r, hmem => by
    simp only [swapLoop, List.append_eq_nil] at h
    rcases List.mem_cons.mp hmem with hEq | hMem
    · subst hEq; exact replErrors_nil_windDown i pt replaced r h.1
    · exact swapLoop_nil_windDown pt rest (i+1) (r0.replace_title :: replaced)
        (total + r0.new_mission.duration_minutes) h.2 r hMem

lemma validate_swap_plan_true_windDown (doc : SwapDoc) (pending : List PendingMission)
    (ctx : TimeCtx) (h0 : ctx.effective_mins_to_bedtime = 0)
    (h : (validate_swap_plan doc pending ctx).1 = true) :
    ∀ r ∈ doc.replacements.getD [],
      (r.new_mission.type = "reflection" ∨ r.new_mission.type = "sleep") ∧
      r.new_mission.difficulty = "easy" ∧ r.new_mission.duration_minutes ≤ 15 := by
  match hsc : doc.swap_count with
  | none => simp [validate_swap_plan, hsc] at h
  | some sc =>
    simp only [validate_swap_plan, hsc, h0] at h
    by_cases hz : sc == 0
    · rw [if_pos hz, beq_iff_eq] at h
      simp only [List.append_eq_nil] at h
      have hrepls : (doc.replacements.getD []).isEmpty = true := by
        by_cases hre : (doc.replacements.getD []).isEmpty
        · exact hre
        · simp [hre] at h
      intro r hmem
      rw [List.isEmpty_iff] at hrepls
      rw [hrepls] at hmem
      simp at hmem
    · rw [if_neg hz, beq_iff_eq] at h
      simp only [List.append_eq_nil] at h
      exact swapLoop_nil_windDown _ _ _ _ _ h.1.2

lemma planLoop_flag (ab : Bool) :
    ∀ (ms : List MissionJson) (i : Nat) (titles : List String) (total : Int) (hm : Bool),
    (planLoop ab ms i titles total hm).2.2 = (hm || ms.any microFlag)
  | [], _, _, _, hm => by simp [planLoop]
  | m :: rest, i, titles, total, hm => by
    simp only [planLoop, List.any_cons]
    rw [planLoop_flag ab rest (i+1) (m.title :: titles)
      (total + m.duration_minutes) (hm || microFlag m)]
    simp [Bool.or_assoc]

lemma validate_plan_no_micro (ms : List MissionJson) (cap : Int) (ctx : TimeCtx)
    (hnm : ∀ m ∈ ms, microFlag m = false) :
    (validate_plan (some ms) cap ctx).1 = false := by
  have hany : ms.any microFlag = false := by
    simp only [List.any_eq_false]
    intro m hm
    simp [hnm m hm]
  have hflag : (planLoop (ctx.effective_mins_to_bedtime == 0) ms 0 [] 0 false).2.2 = false := by
    rw [planLoop_flag]
    simp [hany]
  simp only [validate_plan]
  rw [beq_eq_false_iff_ne]
  intro hEq
  rw [hflag] at hEq
  simp [List.append_eq_nil] at hEq

lemma pyGetM_enc_title (m : MissionJson) :
    pyGetM (encodeMission m) "title" (.pstr "") = Except.ok (.pstr m.title) := rfl

lemma pyGetM_enc_type (m : MissionJson) :
    pyGetM (encodeMission m) "type" (.pstr "") = Except.ok (.pstr m.type) := rfl

lemma pyGetM_enc_difficulty (m : MissionJson) :
    pyGetM (encodeMission m) "difficulty" (.pstr "") = Except.ok (.pstr m.difficulty) := rfl

lemma pyGetM_enc_duration (m : MissionJson) :
    pyGetM (encodeMission m) "duration_minutes" (.pint 0) =
      Except.ok (.pint m.duration_minutes) := rfl

lemma pyGetM_enc_xp (m : MissionJson) :
    pyGetM (encodeMission m) "xp_reward" (.pint 0) = Except.ok (.pint m.xp_reward) := rfl

lemma pyGetM_enc_micro (m : MissionJson) :
    pyGetM (encodeMission m) "micro" (.pdict []) =
      Except.ok (match m.micro with | some mc => encodeMicro mc | none => .pdict []) := by
  rcases m with ⟨t, ty, df, du, xp, mi⟩
  cases mi <;> rfl

lemma pyTruthy_encodeMicro (mc : MicroJson) : pyTruthy (encodeMicro mc) = true := by
  rcases mc with ⟨t, d, x⟩
  cases t <;> rfl

lemma pyGetM_encodeMicro_dur (mc : MicroJson) :
    pyGetM (encodeMicro mc) "duration_minutes" (.pint 0) =
      Except.ok (.pint mc.duration_minutes) := by
  rcases mc with ⟨t, d, x⟩
  cases t <;> rfl

lemma pyEqB_pstr (a b : String) : pyEqB (.pstr a) (.pstr b) = (a == b) := by
  simp [pyEqB]

lemma pyEqB_pint (a b : Int) : pyEqB (.pint a) (.pint b) = (a == b) := by
  simp [pyEqB]

lemma pyAny_pstr (t : String) (l : List String) :
    (l.any (fun s => pyEqB (.pstr t) (.pstr s))) = l.contains t := by
  induction l with
  | nil => rfl
  | cons a as ih =>
    simp only [pyEqB_pstr] at ih
    by_cases h : t = a
    · simp [List.any_cons, pyEqB_pstr, h]
    · simp [List.any_cons, pyEqB_pstr, h, ih]

lemma pyAny_map_pstr (t : String) (l : List String) :
    ((l.map PyVal.pstr).any (fun x => pyEqB (.pstr t) x)) = l.contains t := by
  induction l with
  | nil => rfl
  | cons a as ih =>
    simp only [pyEqB_pstr] at ih
    by_cases h : t = a
    · simp [List.any_cons, pyEqB_pstr, h]
    · simp [List.any_cons, pyEqB_pstr, h, ih]

lemma pyStr_pint (n : Int) : pyStr (.pint n) = toString n := by
  simp [pyStr, pyRepr]

lemma pyRepr_pint (n : Int) : pyRepr (.pint n) = toString n := by
  simp [pyRepr]

lemma exbind_ok {α β : Type} (a : α) (f : α → Except String β) :
    ((Except.ok a : Except String α) >>= f) = f a := rfl

lemma expure_eq (a : α) : (pure a : Except String α) = Except.ok a := rfl

lemma toString_strv (s : String) : toString s = s := rfl

set_option maxHeartbeats 2000000 in
lemma dynLoop_encode (ab : Bool) :
    ∀ (ms : List MissionJson) (i : Nat) (titles : List String) (total : Int) (hm : Bool),
    dynLoop ab (ms.map encodeMission) i (titles.map PyVal.pstr) total hm
      = Except.ok (planLoop ab ms i titles total hm)
  | [], i, titles, total, hm => rfl
  | m :: rest, i, titles, total, hm => by
    have ih := dynLoop_encode ab rest (i+1) (m.title :: titles)
      (total + m.duration_minutes) (hm || microFlag m)
    rw [List.map_cons] at ih
    cases hmc : m.micro with
    | none =>
      simp only [microFlag, hmc, Bool.or_false] at ih
      cases ab with
      | false =>
        simp [dynLoop, planLoop, missionErrors, microFlag, hmc, pyGetM_enc_title,
          pyGetM_enc_type, pyGetM_enc_difficulty, pyGetM_enc_duration, pyGetM_enc_xp,
          pyGetM_enc_micro, pyEqB_pstr, pyAny_pstr, pyAny_map_pstr, pyStr_pint, pyRepr_pint,
          pyTruthy, pyHashable, pyLtI, pyGtI, pyLeI, pyAddI, pyIGt, pyLower,
          titleDeniedB, pyStr, exbind_ok, expure_eq]
        by_cases h5 : m.duration_minutes < 5 <;> by_cases h60 : 60 < m.duration_minutes <;>
          by_cases hx5 : m.xp_reward < 5 <;> by_cases hx60 : 60 < m.xp_reward <;>
          simp [h5, h60, hx5, hx60, exbind_ok, toString_strv, ih]
      | true =>
        simp [dynLoop, planLoop, missionErrors, microFlag, hmc, pyGetM_enc_title,
          pyGetM_enc_type, pyGetM_enc_difficulty, pyGetM_enc_duration, pyGetM_enc_xp,
          pyGetM_enc_micro, pyEqB_pstr, pyAny_pstr, pyAny_map_pstr, pyStr_pint, pyRepr_pint,
          pyTruthy, pyHashable, pyLtI, pyGtI, pyLeI, pyAddI, pyIGt, pyLower,
          titleDeniedB, pyStr, exbind_ok, expure_eq]
        by_cases h5 : m.duration_minutes < 5 <;> by_cases h60 : 60 < m.duration_minutes <;>
          by_cases h15 : 15 < m.duration_minutes <;>
          by_cases hx5 : m.xp_reward < 5 <;> by_cases hx60 : 60 < m.xp_reward <;>
          simp [h5, h60, h15, hx5, hx60, exbind_ok, toString_strv, ih]
    | some mc =>
      simp only [microFlag, hmc] at ih
      cases ab with
      | false =>
        simp [dynLoop, planLoop, missionErrors, microFlag, hmc, pyGetM_enc_title,
          pyGetM_enc_type, pyGetM_enc_difficulty, pyGetM_enc_duration, pyGetM_enc_xp,
          pyGetM_enc_micro, pyTruthy_encodeMicro, pyGetM_encodeMicro_dur,
          pyEqB_pstr, pyAny_pstr, pyAny_map_pstr, pyStr_pint, pyRepr_pint,
          pyHashable, pyLtI, pyGtI, pyLeI, pyAddI, pyIGt, pyLower,
          titleDeniedB, pyStr, exbind_ok, expure_eq]
        by_cases h5 : m.duration_minutes < 5 <;> by_cases h60 : 60 < m.duration_minutes <;>
          by_cases hx5 : m.xp_reward < 5 <;> by_cases hx60 : 60 < m.xp_reward <;>
          simp [h5, h60, hx5, hx60, exbind_ok, toString_strv, ih]
      | true =>
        simp [dynLoop, planLoop, missionErrors, microFlag, hmc, pyGetM_enc_title,
          pyGetM_enc_type, pyGetM_enc_difficulty, pyGetM_enc_duration, pyGetM_enc_xp,
          pyGetM_enc_micro, pyTruthy_encodeMicro, pyGetM_encodeMicro_dur,
          pyEqB_pstr, pyAny_pstr, pyAny_map_pstr, pyStr_pint, pyRepr_pint,
          pyHashable, pyLtI, pyGtI, pyLeI, pyAddI, pyIGt, pyLower,
          titleDeniedB, pyStr, exbind_ok, expure_eq]
        by_cases h5 : m.duration_minutes < 5 <;> by_cases h60 : 60 < m.duration_minutes <;>
          by_cases h15 : 15 < m.duration_minutes <;>
          by_cases hx5 : m.xp_reward < 5 <;> by_cases hx60 : 60 < m.xp_reward <;>
          simp [h5, h60, h15, hx5, hx60, exbind_ok, toString_strv, ih]

/-! Claim theorems. -/

/-- C1: the claim is false on the code.  The spec's scenario A — minutes_cap
60, effective_mins_to_bedtime 120, six missions summing to 55 minutes with a
top-level 4-minute reflection mission and no micro companions — is rejected
by `validate_plan`: a 4-minute top-level duration violates the 5-60 range,
and `has_micro` is set only by a nested `micro` companion object, so the
missing-micro error is also reported; the result is not `(true, [])`. -/
theorem C1_counterexample :
    validate_plan (some scenarioA) 60 ⟨120, 225⟩ =
      (false, ["Mission 5: duration 4 not in 5-60 range",
               "Must include at least one micro mission (<=5 mins)"]) := by decide

/-- C1 (amended): `validate_plan` counts only nested micro companions with
duration ≤ 5 toward the minimal-effort requirement — a candidate in which no
mission carries such a companion is always rejected — and scenario A is
accepted as `(true, [])` once every top-level duration is in 5-60 and the
4-minute minimal-effort option is supplied as a micro companion of the
reflection mission. -/
theorem C1_amended :
    (∀ (ms : List MissionJson) (cap : Int) (ctx : TimeCtx),
      (∀ m ∈ ms, microFlag m = false) →
      (validate_plan (some ms) cap ctx).1 = false) ∧
    validate_plan (some scenarioA_companion) 60 ⟨120, 225⟩ = (true, []) :=
  ⟨validate_plan_no_micro, by decide⟩

/-- C1 witness: scenario A has no micro companions, and the amended theorem
applied to it yields rejection. -/
theorem C1_witness :
    (∀ m ∈ scenarioA, microFlag m = false) ∧
    (validate_plan (some scenarioA) 60 ⟨120, 225⟩).1 = false :=
  ⟨by decide, C1_amended.1 scenarioA 60 ⟨120, 225⟩ (by decide)⟩

/-- C2: wind-down invariant.  Whenever `effective_mins_to_bedtime = 0`, every
mission entry of a candidate accepted by `validate_plan`, and every
replacement's new mission of a swap document accepted by
`validate_swap_plan`, has category reflection or sleep, difficulty "easy"
and duration at most 15 minutes. -/
theorem C2_wind_down :
    (∀ (ms : List MissionJson) (cap : Int) (ctx : TimeCtx),
      ctx.effective_mins_to_bedtime = 0 →
      (validate_plan (some ms) cap ctx).1 = true →
      ∀ m ∈ ms, (m.type = "reflection" ∨ m.type = "sleep") ∧ m.difficulty = "easy" ∧
        m.duration_minutes ≤ 15) ∧
    (∀ (doc : SwapDoc) (pending : List PendingMission) (ctx : TimeCtx),
      ctx.effective_mins_to_bedtime = 0 →
      (validate_swap_plan doc pending ctx).1 = true →
      ∀ r ∈ doc.replacements.getD [],
        (r.new_mission.type = "reflection" ∨ r.new_mission.type = "sleep") ∧
        r.new_mission.difficulty = "easy" ∧ r.new_mission.duration_minutes ≤ 15) :=
  ⟨validate_plan_true_windDown, validate_swap_plan_true_windDown⟩

/-- C2 witness: a concrete wind-down plan and swap document are accepted at
`effective_mins_to_bedtime = 0`, and the invariant instantiates to their
first entries. -/
theorem C2_witness :
    (validate_plan (some windDownPlan) 60 ⟨0, 120⟩).1 = true ∧
    ((("Gratitude journal" : String) = "Gratitude journal") ∧
      ((⟨"Gratitude journal", "reflection", "easy", 10, 10,
          some ⟨some "One deep breath", 3, 5⟩⟩ : MissionJson).type = "reflection" ∨
       (⟨"Gratitude journal", "reflection", "easy", 10, 10,
          some ⟨some "One deep breath", 3, 5⟩⟩ : MissionJson).type = "sleep")) ∧
    (validate_swap_plan windDownSwapDoc windDownPending ⟨0, 120⟩).1 = true ∧
    ((⟨"Old study block",
        ⟨"Night journaling", "reflection", "easy", 10, 10,
          some ⟨some "One line of gratitude", 3, 5⟩⟩, "winding down"⟩ : ReplJson).new_mission.type
        = "reflection" ∨
     (⟨"Old study block",
        ⟨"Night journaling", "reflection", "easy", 10, 10,
          some ⟨some "One line of gratitude", 3, 5⟩⟩, "winding down"⟩ : ReplJson).new_mission.type
        = "sleep") :=
  ⟨by decide,
   ⟨rfl, (C2_wind_down.1 windDownPlan 60 ⟨0, 120⟩ rfl (by decide)
      ⟨"Gratitude journal", "reflection", "easy", 10, 10,
        some ⟨some "One deep breath", 3, 5⟩⟩ (by decide)).1⟩,
   by decide,
   (C2_wind_down.2 windDownSwapDoc windDownPending ⟨0, 120⟩ rfl (by decide)
      ⟨"Old study block",
        ⟨"Night journaling", "reflection", "easy", 10, 10,
          some ⟨some "One line of gratitude", 3, 5⟩⟩, "winding down"⟩ (by decide)).1⟩

/-- C3: supersession invariant.  If `assign_plan_creating_daily_missions`
commits successfully (returns `true`), then every other previously assigned
full-day run for the same user and date now has status `superseded` in the
committed store, each of its assignments that was still `pending` is now
`archived`, and each of its assignments that was already `completed` is
present unchanged in all fields. -/
theorem C3_supersession (db db' : Store) (uid : Nat) (d : String) (rid : Nat)
    (old : PlanRunRec)
    (hok : assign_plan_creating_daily_missions uid d rid db = Except.ok (db', true))
    (hmem : old ∈ db.planRuns) (hu : old.user_id = uid) (hd : old.date = d)
    (hk : old.kind = "full_plan") (hs : old.status = "assigned") (hne : old.id ≠ rid) :
    ({ old with status := "superseded" } ∈ db'.planRuns) ∧
    ∀ a ∈ db.assignments, a.plan_run_id = some old.id → a.user_id = uid → a.date = d →
      ((a.status = "pending" → { a with status := "archived" } ∈ db'.assignments) ∧
       (a.status = "completed" → a ∈ db'.assignments)) := by
  have hcond : isOldAssignedRun uid d rid old = true := by
    simp [isOldAssignedRun, hu, hd, hk, hs, hne]
  simp only [assign_plan_creating_daily_missions] at hok
  cases hfind : db.planRuns.find? (fun r => r.id == rid) with
  | none =>
    rw [hfind] at hok
    exact Except.noConfusion hok
  | some pr =>
    rw [hfind] at hok
    dsimp only at hok
    by_cases hpr : pr.status == "assigned"
    · rw [if_pos hpr] at hok
      simp at hok
    · rw [if_neg hpr] at hok
      by_cases hemp : pr.meta_missions.isEmpty
      · rw [if_pos hemp] at hok
        simp only [Except.ok.injEq, Prod.mk.injEq, and_true] at hok
        subst hok
        refine ⟨?_, ?_⟩
        · have h1 := List.mem_map_of_mem (fun r =>
            if isOldAssignedRun uid d rid r then { r with status := "superseded" } else r) hmem
          simp only [hcond, if_true] at h1
          have h2 := List.mem_map_of_mem (fun r =>
            if r.id == rid then { r with status := "assigned", meta_counts := some (0, 0) }
            else r) h1
          simp only [show (({ old with status := "superseded" } : PlanRunRec).id == rid) = false by
            simp [hne]] at h2
          simpa using h2
        · intro a hamem hpid hau had
          refine ⟨?_, ?_⟩
          · intro hpend
            have hcA : archivedByAssign uid d rid db.planRuns a = true := by
              simp only [archivedByAssign, hpid]
              simp [hau, had, hpend]
              exact ⟨old, hmem, by simp [hcond]⟩
            have h1 := List.mem_map_of_mem (fun a =>
              if archivedByAssign uid d rid db.planRuns a then { a with status := "archived" }
              else a) hamem
            simp only [hcA, if_true] at h1
            simpa using h1
          · intro hcomp
            have hcA : archivedByAssign uid d rid db.planRuns a = false := by
              simp [archivedByAssign, hcomp]
            have h1 := List.mem_map_of_mem (fun a =>
              if archivedByAssign uid d rid db.planRuns a then { a with status := "archived" }
              else a) hamem
            simp only [hcA] at h1
            simpa using h1
      · rw [if_neg hemp] at hok
        exact Except.noConfusion hok

/-- C3 witness: assigning run 2 over the assigned run 1 of `twoRunStore`
supersedes run 1, archives its pending assignment 100 and keeps its
completed assignment 101 unchanged. -/
theorem C3_witness :
    ({ (⟨1, 1, "2025-01-15", 1, "missions_page", "full_plan", "assigned", [], none⟩ :
        PlanRunRec) with status := "superseded" } ∈ twoRunStoreAssigned.planRuns) ∧
    ({ (⟨100, 1, 10, "2025-01-15", "pending", some 1, false, none⟩ : AssignRec) with
        status := "archived" } ∈ twoRunStoreAssigned.assignments) ∧
    ((⟨101, 1, 11, "2025-01-15", "completed", some 1, false,
        some "2025-01-15T10:00:00"⟩ : AssignRec) ∈ twoRunStoreAssigned.assignments) := by
  have h := C3_supersession twoRunStore twoRunStoreAssigned 1 "2025-01-15" 2
    ⟨1, 1, "2025-01-15", 1, "missions_page", "full_plan", "assigned", [], none⟩
    (by rfl) (by decide) rfl rfl rfl rfl (by decide)
  exact ⟨h.1,
    (h.2 ⟨100, 1, 10, "2025-01-15", "pending", some 1, false, none⟩
      (by decide) rfl rfl rfl).1 rfl,
    (h.2 ⟨101, 1, 11, "2025-01-15", "completed", some 1, false, some "2025-01-15T10:00:00"⟩
      (by decide) rfl rfl rfl).2 rfl⟩

/-- C4: assignment idempotence.  Calling
`assign_plan_creating_daily_missions` on a run whose persisted status is
already `assigned` returns `false` with the store unchanged — no mission or
assignment is created and no prior run is superseded. -/
theorem C4_idempotent (db : Store) (uid : Nat) (d : String) (rid : Nat) (run : PlanRunRec)
    (hfind : db.planRuns.find? (fun r => r.id == rid) = some run)
    (hst : run.status = "assigned") :
    assign_plan_creating_daily_missions uid d rid db = Except.ok (db, false) := by
  simp only [assign_plan_creating_daily_missions, hfind]
  simp [hst]

/-- C4 witness: after the first assignment of run 2, a second call returns
`false` and leaves the store exactly as it was. -/
theorem C4_witness :
    assign_plan_creating_daily_missions 1 "2025-01-15" 2 twoRunStore =
      Except.ok (twoRunStoreAssigned, true) ∧
    assign_plan_creating_daily_missions 1 "2025-01-15" 2 twoRunStoreAssigned =
      Except.ok (twoRunStoreAssigned, false) :=
  ⟨by rfl,
   C4_idempotent twoRunStoreAssigned 1 "2025-01-15" 2
     ⟨2, 1, "2025-01-15", 2, "missions_page", "full_plan", "assigned", [], some (0, 0)⟩
     (by rfl) rfl⟩

/-- C5: the claim is false on the code.  `complete_recovery_mission` has no
already-completed guard: re-invoking it on the already-completed recovery
assignment 5 of `recoveryStore` mutates the store again (streak 5 becomes 6,
the shield counter drops from 1 to 0), so recovery completion is not a
no-op. -/
theorem C5_counterexample :
    complete_recovery_mission 5 recoveryStore ≠ recoveryStore ∧
    (complete_recovery_mission 5 recoveryStore).profiles = [⟨1, 6, 0, some "21:30"⟩] := by
  decide

/-- C5 (amended): ordinary completion (`complete_assignment`) and micro
completion (`mark_micro_completed`) are idempotent — on an assignment whose
status is already `completed` they return the existing record (respectively
`ok` with no errors) and leave the store untouched, so no second reward is
granted; recovery completion lacks this guard. -/
theorem C5_amended :
    (∀ (db : Store) (uid aid : Nat) (a : AssignRec),
      db.assignments.find? (fun x => x.id == aid && x.user_id == uid) = some a →
      lowerStr a.status = "completed" →
      complete_assignment db uid aid = Except.ok (db, a)) ∧
    (∀ (db : Store) (aid : Nat) (todayStr nowStamp : String) (now : NowTime) (a : AssignRec),
      db.assignments.find? (fun x => x.id == aid) = some a →
      a.status = "completed" →
      mark_micro_completed aid todayStr nowStamp now db = Except.ok ((true, []), db)) := by
  constructor
  · intro db uid aid a hfind hst
    simp only [complete_assignment, hfind]
    simp [hst]
  · intro db aid todayStr nowStamp now a hfind hst
    simp only [mark_micro_completed, hfind]
    simp [hst]

/-- C5 witness: both idempotent paths on the completed micro assignment 7 of
`completedMicroStore`. -/
theorem C5_witness :
    complete_assignment completedMicroStore 1 7 =
      Except.ok (completedMicroStore,
        ⟨7, 1, 70, "2025-01-15", "completed", none, false, some "2025-01-15T18:00:00"⟩) ∧
    mark_micro_completed 7 "2025-01-15" "2025-01-15T20:00:00" ⟨20, 0, 0⟩ completedMicroStore =
      Except.ok ((true, []), completedMicroStore) :=
  ⟨C5_amended.1 completedMicroStore 1 7
     ⟨7, 1, 70, "2025-01-15", "completed", none, false, some "2025-01-15T18:00:00"⟩
     (by rfl) (by decide),
   C5_amended.2 completedMicroStore 7 "2025-01-15" "2025-01-15T20:00:00" ⟨20, 0, 0⟩
     ⟨7, 1, 70, "2025-01-15", "completed", none, false, some "2025-01-15T18:00:00"⟩
     (by rfl) rfl⟩

/-- C6: evaluation of the code at the failing input.  For the pending
3-minute study mission (xp_reward 10), the claimed rule says micro
qualification (duration in (0,5]) and reward 10 + bonus; the code's
`is_micro` reads the nonexistent attribute `duration_min` (always 0), so it
returns `false`, the base reward read from the nonexistent attribute `xp` is
0, and `complete_assignment` then raises `TypeError` constructing
`AuditLog(action=...)` (the model's column is `event_type`), so the
completion neither persists nor awards anything. -/
theorem C6_code_eval :
    is_micro shortStudyMission = false ∧
    complete_earned shortStudyMission = 0 ∧
    complete_assignment shortStudyStore 1 8 =
      Except.error "TypeError: 'action' is an invalid keyword argument for AuditLog" :=
  ⟨by decide, by decide, by rfl⟩

/-- C7: swap ceiling invariant.  For every swap document, pending list and
time context, if the document's `swap_count` exceeds the ceiling re-derived
from the time context (1 below 15 effective minutes, 2 below 30, else 3) or
lies outside [0,3], `validate_swap_plan` returns `ok = false`. -/
theorem C7_swap_ceiling (doc : SwapDoc) (pending : List PendingMission)
    (ctx : TimeCtx) (c : Int) (hsc : doc.swap_count = some c)
    (hbad : c > swapLimit ctx ∨ c < 0 ∨ c > 3) :
    (validate_swap_plan doc pending ctx).1 = false := by
  have hlim := swapLimit_ge_one ctx
  have hc0 : ¬(c == 0) = true := by
    rw [beq_iff_eq]
    rcases hbad with h | h | h <;> omega
  simp only [validate_swap_plan, hsc, if_neg hc0]
  rw [beq_eq_false_iff_ne]
  intro hEq
  simp only [List.append_eq_nil] at hEq
  rcases hbad with h | h | h
  · have := hEq.1.1.1.2
    simp [h] at this
  · have := hEq.1.1.1.1
    have hor : (c < 0 || c > 3) = true := by simp; omega
    simp [hor] at this
  · have := hEq.1.1.1.1
    have hor : (c < 0 || c > 3) = true := by simp; omega
    simp [hor] at this

/-- C7 witness: a document claiming five swaps is rejected even far from the
cutoff (ceiling 3). -/
theorem C7_witness :
    overcountSwapDoc.swap_count = some 5 ∧
    (validate_swap_plan overcountSwapDoc [] ⟨100, 200⟩).1 = false :=
  ⟨rfl, C7_swap_ceiling overcountSwapDoc [] ⟨100, 200⟩ 5 rfl
    (Or.inr (Or.inr (by norm_num)))⟩

/-- C8: `propose_swaps` always returns a document whose `swap_count` is
present and at most the time-derived ceiling, whatever the collaborator
returned; in particular, with `effective_mins_to_bedtime = 10` (ceiling 1)
and three pending missions, a collaborator answer claiming three swaps is
clamped to 1. -/
theorem C8_clamp :
    (∀ (pending : List PendingMission) (ctx : TimeCtx) (dateStr : String)
       (resp : Option SwapDoc),
       ∃ c, (propose_swaps pending ctx dateStr resp).swap_count = some c ∧
         c ≤ swapLimit ctx) ∧
    propose_swaps scenarioC_pending ⟨10, 100⟩ "2025-01-15" (some scenarioC_resp) =
      { date := some "2025-01-15", swap_count := some 1, no_swap_reason := some "",
        replacements := some [], notes := some "" } := by
  constructor
  · intro pending ctx dateStr resp
    have hlim := swapLimit_ge_one ctx
    unfold propose_swaps
    by_cases hp : pending.isEmpty
    · simp only [hp, if_true]
      exact ⟨0, rfl, by omega⟩
    · simp only [hp, Bool.false_eq_true, if_false]
      match resp with
      | none => exact ⟨0, rfl, by omega⟩
      | some d =>
        by_cases hf : d.isFalsy
        · simp only [hf, if_true]
          exact ⟨0, rfl, by omega⟩
        · simp only [hf, Bool.false_eq_true, if_false]
          exact ⟨min (d.swap_count.getD 0) (swapLimit ctx), rfl, min_le_right _ _⟩
  · decide

/-- C9: the claim is false on the code.  `validate_plan` can raise on a
dict-shaped document with an ill-typed field: with `missions = 5`, Python
evaluates `len(missions)` on an int and raises `TypeError` instead of
returning a (bool, errors) pair. -/
theorem C9_counterexample :
    validate_plan_dyn [("missions", PyVal.pint 5)] (.pint 60) (.pdict []) =
      Except.error "TypeError: object of type 'int' has no len()" := by rfl

/-- C9 (amended): on every schema-shaped document (missions a list of dicts
whose present fields carry values of the schema's types), `validate_plan`
terminates normally and returns exactly the (bool, error-list) pair of the
typed validator; exception-freedom holds only on that domain. -/
theorem C9_amended (plan : Option (List MissionJson)) (cap : Int) (ctx : TimeCtx) :
    validate_plan_dyn (encodePlan plan) (.pint cap) (encodeCtx ctx)
      = Except.ok (validate_plan plan cap ctx) := by
  cases plan with
  | none => rfl
  | some ms =>
    have hloop := dynLoop_encode (ctx.effective_mins_to_bedtime == 0) ms 0 [] 0 false
    simp only [List.map_nil] at hloop
    simp [validate_plan_dyn, validate_plan, encodePlan, encodeCtx, pyGetM, pyLen, pyIter,
      pyEqB_pint, pyIGt, pyStr_pint, pyRepr_pint, toString_strv, exbind_ok, expure_eq, hloop]

/-- C10: the claim is false on the code.  A stored cutoff of "25:00" parses
as two integers inside the guarded `try`, but `now_local.replace(hour=25)`
sits outside it and raises `ValueError`, so `compute_time_context` raises
instead of falling back to the 21:30 default. -/
theorem C10_counterexample :
    compute_time_context (some "25:00") ⟨22, 0, 0⟩ =
      Except.error "ValueError: hour/minute must be in range in datetime.replace" := by rfl

/-- C10 (amended): for every cutoff string that does not parse as two Python
ints (the `try` fails), `compute_time_context` behaves exactly like a missing
profile — it silently uses the 21:30 default and returns a complete record
without raising; only a string parsing to an out-of-range hour or minute
makes `datetime.replace` raise. -/
theorem C10_amended (s : String) (now : NowTime) (hp : parseHM s = none) :
    compute_time_context (some s) now = compute_time_context none now ∧
    (compute_time_context none now).isOk = true := by
  have h2130 : parseHM "21:30" = some ((21 : Int), (30 : Int)) := by decide
  constructor
  · simp only [compute_time_context, Option.getD, hp, h2130]
  · simp only [compute_time_context, Option.getD, h2130]
    norm_num [Except.isOk, Except.toBool]

/-- C10 witness: the unparseable cutoff "abc" behaves exactly like a missing
profile and the default computation succeeds. -/
theorem C10_witness :
    compute_time_context (some "abc") ⟨22, 0, 0⟩ = compute_time_context none ⟨22, 0, 0⟩ ∧
    (compute_time_context none ⟨22, 0, 0⟩).isOk = true :=
  C10_amended "abc" ⟨22, 0, 0⟩ (by decide)

end SoulSync
